import Mathlib

/-!
Shallow embedding of the ChatPwC backend job-execution subsystem.

Modelled sources: the in-memory store (app/storage/memory_store.py), the
provider factory (app/llm/provider_registry.py), the task runner
(app/tasks.py), the chat service (app/services/chat_service.py), the job
service (app/services/job_service.py) and the SSE streaming endpoint
(app/routers/jobs.py).

External collaborators (the LLM HTTP clients and the agents) are parameters
of a run: an oracle of type RunEnv supplies the reply or the exception of
each external call.  A Python exception is modelled as the String produced
by str(exc); a function that can raise returns Except String.  The call to
datetime.utcnow() is modelled as a tick supplied by the environment, and
uuid-generated identifiers are passed in as arguments.  A Python dict is
modelled as an association list keyed by the identifier strings.
-/

namespace App

/-- Association-list lookup keyed by identifier strings, modelling Python
dictionary access d.get(k). -/
def lookupId {α : Type} : List (String × α) → String → Option α
  | [], _ => none
  | p :: rest, k => if p.1 = k then some p.2 else lookupId rest k

/-- In-place mutation of the record held under a key of a Python dict:
the stored value is replaced by f applied to it, all other keys keep
their bindings. -/
def updateId {α : Type} (f : α → α) : List (String × α) → String → List (String × α)
  | [], _ => []
  | p :: rest, k => if p.1 = k then (p.1, f p.2) :: rest else p :: updateId f rest k

/-- A metadata bag such as the one built in job_service.create_job:
string keys mapped to a string or None. -/
abbrev Metadata := List (String × Option String)

/-- A structured result payload such as the output_payload dict built in
tasks.py: string keys mapped to a string or None. -/
abbrev Payload := List (String × Option String)

/-- Message dataclass from memory_store.py. -/
structure Message where
  role : String
  content : String
  timestamp : Nat
deriving Repr, DecidableEq

/-- Chat dataclass from memory_store.py. -/
structure Chat where
  id : String
  provider : String
  model : String
  agent_id : Option String := none
  title : Option String := none
  messages : List Message := []
deriving Repr, DecidableEq

/-- Job dataclass from memory_store.py. -/
structure Job where
  id : String
  chat_id : String
  prompt : String
  status : String := "queued"
  logs : List String := []
  result_message : Option String := none
  output_docx_path : Option String := none
  output_payload : Option Payload := none
  error : Option String := none
  metadata : Metadata := []
deriving Repr, DecidableEq

/-- MemoryStore from memory_store.py: the dictionaries self.chats and
self.jobs. -/
structure MemoryStore where
  chats : List (String × Chat) := []
  jobs : List (String × Job) := []
deriving Repr, DecidableEq

/-- MemoryStore.create_chat: stores a fresh Chat under the generated
identifier (uuid generation is modelled by taking chat_id as an input). -/
def MemoryStore.create_chat (s : MemoryStore) (chat_id provider model : String)
    (agent_id title : Option String) : MemoryStore × Chat :=
  let chat : Chat := { id := chat_id, provider := provider, model := model,
                       agent_id := agent_id, title := title }
  ({ s with chats := s.chats ++ [(chat_id, chat)] }, chat)

/-- MemoryStore.get_chat: raises KeyError when the chat is absent. -/
def MemoryStore.get_chat (s : MemoryStore) (chat_id : String) : Except String Chat :=
  match lookupId s.chats chat_id with
  | some c => Except.ok c
  | none => Except.error ("Chat " ++ chat_id ++ " not found")

/-- MemoryStore.add_message: raises KeyError when the chat is absent,
stamps the current time (the tick ts) and appends the Message to the
chat's message list. -/
def MemoryStore.add_message (s : MemoryStore) (chat_id role content : String)
    (ts : Nat) : Except String (MemoryStore × Message) :=
  match lookupId s.chats chat_id with
  | none => Except.error ("Chat " ++ chat_id ++ " not found")
  | some _ =>
    let msg : Message := { role := role, content := content, timestamp := ts }
    Except.ok
      ({ s with chats := updateId (fun c => { c with messages := c.messages ++ [msg] }) s.chats chat_id },
       msg)

/-- MemoryStore.create_job: stores a fresh Job with status queued, empty
logs and the given metadata under the generated identifier. -/
def MemoryStore.create_job (s : MemoryStore) (job_id chat_id prompt : String)
    (metadata : Metadata) : MemoryStore × Job :=
  let job : Job := { id := job_id, chat_id := chat_id, prompt := prompt,
                     status := "queued", metadata := metadata }
  ({ s with jobs := s.jobs ++ [(job_id, job)] }, job)

/-- MemoryStore.get_job: raises KeyError when the job is absent. -/
def MemoryStore.get_job (s : MemoryStore) (job_id : String) : Except String Job :=
  match lookupId s.jobs job_id with
  | some j => Except.ok j
  | none => Except.error ("Job " ++ job_id ++ " not found")

/-- The keyword arguments of MemoryStore.update_job; a field holds none
when the corresponding argument is left at its None default. -/
structure JobUpdate where
  status : Option String := none
  log : Option String := none
  result_message : Option String := none
  output_docx_path : Option String := none
  output_payload : Option Payload := none
  error : Option String := none
deriving Repr, DecidableEq

/-- The field mutations performed inside MemoryStore.update_job.  Each
conditional mirrors the Python test: status, result_message,
output_docx_path, output_payload and error are applied when the argument
is not None, while the log line is appended only when the argument is
truthy, that is neither None nor the empty string. -/
def applyJobUpdate (u : JobUpdate) (j : Job) : Job :=
  { j with
    status := match u.status with | some v => v | none => j.status,
    logs := match u.log with
            | some l => if l = "" then j.logs else j.logs ++ [l]
            | none => j.logs,
    result_message := match u.result_message with | some v => some v | none => j.result_message,
    output_docx_path := match u.output_docx_path with | some v => some v | none => j.output_docx_path,
    output_payload := match u.output_payload with | some v => some v | none => j.output_payload,
    error := match u.error with | some v => some v | none => j.error }

/-- MemoryStore.update_job from memory_store.py: the sole mutation path for
a Job after creation.  It loads the Job (raising KeyError when absent),
applies the supplied fields and returns the updated Job. -/
def MemoryStore.update_job (s : MemoryStore) (job_id : String) (u : JobUpdate) :
    Except String (MemoryStore × Job) :=
  match lookupId s.jobs job_id with
  | none => Except.error ("Job " ++ job_id ++ " not found")
  | some j =>
    let j2 := applyJobUpdate u j
    Except.ok ({ s with jobs := updateId (fun _ => j2) s.jobs job_id }, j2)

/-- The settings object consumed by provider_registry.py (config.py only
feeds the api keys through; they play no further role). -/
structure Settings where
  OPENAI_API_KEY : String := ""
  ANTHROPIC_API_KEY : String := ""
deriving Repr, DecidableEq

/-- Python str.lower(), written structurally over the character list so
that concrete instances evaluate inside the kernel. -/
def lowerString (s : String) : String := ⟨s.data.map Char.toLower⟩

/-- Python str.strip(): drop whitespace from both ends, written
structurally over the character list. -/
def stripString (s : String) : String :=
  ⟨((s.data.dropWhile Char.isWhitespace).reverse.dropWhile Char.isWhitespace).reverse⟩

/-- The two concrete clients the factory in provider_registry.py can
return. -/
inductive LLMClient where
  | openai (model api_key : String)
  | anthropic (model api_key : String)
deriving Repr, DecidableEq

/-- create_llm_client from provider_registry.py.  It raises ValueError for
an empty provider or an empty model, normalizes the provider name by
provider.strip().lower(), returns an OpenAI client for openai / gpt /
chatgpt and an Anthropic client for anthropic / claude, and raises
ValueError for every other name. -/
def create_llm_client (settings : Settings) (provider model : String) :
    Except String LLMClient :=
  if provider = "" then Except.error "LLM provider is required."
  else if model = "" then Except.error "LLM model is required."
  else
    let p := lowerString (stripString provider)
    if p ∈ (["openai", "gpt", "chatgpt"] : List String) then
      Except.ok (LLMClient.openai model settings.OPENAI_API_KEY)
    else if p ∈ (["anthropic", "claude"] : List String) then
      Except.ok (LLMClient.anthropic model settings.ANTHROPIC_API_KEY)
    else
      Except.error ("Unknown provider: " ++ p ++ ". Supported: openai, anthropic")

/-- Modelled from the spec: the file app/services/job_manager.py (the
job_manager singleton with its JobStatus values, imported by tasks.py,
job_service.py and routers/jobs.py) is not among the provided sources.
Spec section 4.2 describes the Status Channel entry as a mirrored record
holding status, logs and result, created with initial status queued, an
empty log sequence and no result. -/
structure ChannelEntry where
  status : String := "queued"
  logs : List String := []
  result : Option Payload := none
  metadata : Metadata := []
deriving Repr, DecidableEq

/-- Modelled from the spec: the container behind the job_manager
singleton, keyed by job identifier. -/
structure JobManager where
  entries : List (String × ChannelEntry) := []
deriving Repr, DecidableEq

/-- Modelled from the spec: the arguments of job_manager.update_job as
called from tasks.py (status, log, result); a field holds none when the
argument is left out or passed as None. -/
structure ChannelUpdate where
  status : Option String := none
  log : Option String := none
  result : Option Payload := none
deriving Repr, DecidableEq

/-- Modelled from the spec: createEntry registers a new mirrored record
with initial status queued, empty logs and no result (section 4.2); the
entry is keyed by the job identifier so that the Task Runner's updates
target the mirror of the job they concern. -/
def JobManager.create_job (m : JobManager) (job_id : String) (metadata : Metadata) :
    JobManager :=
  { entries := m.entries ++ [(job_id, { metadata := metadata })] }

/-- Modelled from the spec: updateEntry appends a log line and/or
overwrites status/result (section 4.2), mirroring the ordering of the
Shared Store writes; an unknown handle leaves the container unchanged. -/
def JobManager.update_job (m : JobManager) (job_id : String) (u : ChannelUpdate) :
    JobManager :=
  { entries := updateId (fun e =>
      { e with
        status := match u.status with | some v => v | none => e.status,
        logs := match u.log with
                | some l => if l = "" then e.logs else e.logs ++ [l]
                | none => e.logs,
        result := match u.result with | some r => some r | none => e.result })
      m.entries job_id }

/-- Modelled from the spec: readEntry returns a snapshot of the entry, or
None for an unknown identifier (the SSE route tests the returned value
for truthiness). -/
def JobManager.get_job (m : JobManager) (job_id : String) : Option ChannelEntry :=
  lookupId m.entries job_id

/-- The response object of the model client's chat capability; the runner
reads response.text. -/
structure LLMResponse where
  text : String
deriving Repr, DecidableEq

/-- The result object returned by an agent's run capability. -/
structure AgentResult where
  text : String
  output_docx_path : Option String := none
deriving Repr, DecidableEq

/-- An agent as resolved from the agent registry: a name and a run
capability which either returns a result or raises. -/
structure Agent where
  name : String
  run : Chat → LLMClient → String → String → Except String AgentResult

/-- The oracle supplying the behavior of the external collaborators of one
run: the model clients' chat capability, the agent registry, and the clock
tick used for datetime.utcnow(). -/
structure RunEnv where
  settings : Settings := {}
  llm_chat : LLMClient → List (String × String) → Except String LLMResponse
  agents : String → Option Agent
  ts : Nat := 0

/-- Modelled from the spec: app/services/agent_registry.py is not among
the provided sources.  Section 6 specifies resolve(agentId) as failing
fatally when the identifier is unknown, with no fallback. -/
def get_agent (agents : String → Option Agent) (agent_id : String) :
    Except String Agent :=
  match agents agent_id with
  | some a => Except.ok a
  | none => Except.error ("Unknown agent: " ++ agent_id)

/-- The observable outcome of one invocation of the task runner.  raised
holds the description of an exception that escaped _run_job to the
scheduler, store and manager are the final states of the two containers,
llm_calls records each history passed to the model client's chat
capability, and store_status_writes records, in call order, the status
values successfully applied to the memory store by update_job during the
run. -/
structure RunOutcome where
  raised : Option String
  store : MemoryStore
  manager : JobManager
  llm_calls : List (List (String × String))
  store_status_writes : List String
deriving Repr, DecidableEq

/-- The except-branch of _run_job in tasks.py: record the failure on the
Job (status failed, log line built from the exception text, error field)
and mirror it to the job_manager with result None.  An exception raised by
this very bookkeeping (the job vanished) escapes the runner. -/
def runJobFail (s : MemoryStore) (m : JobManager) (job_id exc : String)
    (calls : List (List (String × String))) : RunOutcome :=
  match s.update_job job_id
      { status := some "failed", log := some ("Job failed: " ++ exc), error := some exc } with
  | Except.error e2 =>
    { raised := some e2, store := s, manager := m, llm_calls := calls,
      store_status_writes := [] }
  | Except.ok (s2, _) =>
    let m2 := m.update_job job_id
      { status := some "failed", log := some ("Job failed: " ++ exc), result := none }
    { raised := none, store := s2, manager := m2, llm_calls := calls,
      store_status_writes := ["failed"] }

/-- Normal chat mode of _run_job (tasks.py): build the conversation
history from the chat's messages, append the prompt as a final user turn,
call the model client once, append the returned text as an assistant
Message, then set the Job completed in the store and in the mirror.  Any
exception raised inside this try-block body lands in runJobFail. -/
def runNormalMode (env : RunEnv) (s : MemoryStore) (m : JobManager)
    (job_id : String) (chat : Chat) (llm_client : LLMClient) (prompt : String) :
    RunOutcome :=
  let messages := chat.messages.map (fun mg => (mg.role, mg.content)) ++ [("user", prompt)]
  match env.llm_chat llm_client messages with
  | Except.error exc => runJobFail s m job_id exc [messages]
  | Except.ok response =>
    let result_text := response.text
    match s.add_message chat.id "assistant" result_text env.ts with
    | Except.error exc => runJobFail s m job_id exc [messages]
    | Except.ok (s1, _) =>
      match s1.update_job job_id
          { status := some "completed", log := some "Normal chat completed",
            result_message := some result_text,
            output_payload := some [("text", some result_text)] } with
      | Except.error exc => runJobFail s1 m job_id exc [messages]
      | Except.ok (s2, _) =>
        let m2 := m.update_job job_id
          { status := some "completed", log := some "Normal chat completed",
            result := some [("text", some result_text)] }
        { raised := none, store := s2, manager := m2, llm_calls := [messages],
          store_status_writes := ["completed"] }

/-- Agent mode of _run_job (tasks.py): resolve the agent (a failure is
caught by the except-branch), invoke its run capability, append the
returned text as an assistant Message, then set the Job completed with the
result message, the optional docx path and the payload carrying both. -/
def runAgentMode (env : RunEnv) (s : MemoryStore) (m : JobManager)
    (job_id : String) (chat : Chat) (llm_client : LLMClient) (prompt : String) :
    RunOutcome :=
  match get_agent env.agents (chat.agent_id.getD "") with
  | Except.error exc => runJobFail s m job_id exc []
  | Except.ok agent =>
    match agent.run chat llm_client job_id prompt with
    | Except.error exc => runJobFail s m job_id exc []
    | Except.ok result =>
      match s.add_message chat.id "assistant" result.text env.ts with
      | Except.error exc => runJobFail s m job_id exc []
      | Except.ok (s1, _) =>
        match s1.update_job job_id
            { status := some "completed", log := some "Agent job completed",
              result_message := some result.text,
              output_docx_path := result.output_docx_path,
              output_payload := some [("text", some result.text),
                                      ("output_docx_path", result.output_docx_path)] } with
        | Except.error exc => runJobFail s1 m job_id exc []
        | Except.ok (s2, _) =>
          let m2 := m.update_job job_id
            { status := some "completed", log := some "Agent job completed",
              result := some [("text", some result.text),
                              ("output_docx_path", result.output_docx_path)] }
          { raised := none, store := s2, manager := m2, llm_calls := [],
            store_status_writes := ["completed"] }

/-- _run_job from tasks.py.  The job load, the chat load and the client
creation happen before the try-block: an exception raised by any of them
escapes to the scheduler of the task (the raised field) and touches
neither container.  The runner then marks the mirror entry running with
the log line Job started and branches on the chat's agent_id, treating
None and the empty string as normal chat mode. -/
def run_job (env : RunEnv) (s : MemoryStore) (m : JobManager) (job_id : String) :
    RunOutcome :=
  match s.get_job job_id with
  | Except.error e =>
    { raised := some e, store := s, manager := m, llm_calls := [],
      store_status_writes := [] }
  | Except.ok job =>
    match s.get_chat job.chat_id with
    | Except.error e =>
      { raised := some e, store := s, manager := m, llm_calls := [],
        store_status_writes := [] }
    | Except.ok chat =>
      match create_llm_client env.settings chat.provider chat.model with
      | Except.error e =>
        { raised := some e, store := s, manager := m, llm_calls := [],
          store_status_writes := [] }
      | Except.ok llm_client =>
        let m1 := m.update_job job_id
          { status := some "running", log := some "Job started" }
        if chat.agent_id.getD "" = "" then
          runNormalMode env s m1 job_id chat llm_client job.prompt
        else
          runAgentMode env s m1 job_id chat llm_client job.prompt

/-- create_job from job_service.py: load the chat (KeyError propagates),
create the Job in the memory store with the metadata bag, and register the
mirrored entry with the job_manager. -/
def job_service_create_job (s : MemoryStore) (m : JobManager)
    (job_id chat_id prompt : String) :
    Except String (MemoryStore × JobManager × Job) :=
  match s.get_chat chat_id with
  | Except.error e => Except.error e
  | Except.ok chat =>
    let md : Metadata := [("chat_id", some chat_id), ("agent_id", chat.agent_id)]
    let (s1, job) := s.create_job job_id chat_id prompt md
    let m1 := m.create_job job_id md
    Except.ok (s1, m1, job)

/-- The observable outcome of run_normal_chat from chat_service.py. -/
structure NormalChatOutcome where
  raised : Option String
  store : MemoryStore
  reply : Option String
  llm_calls : List (List (String × String))
deriving Repr, DecidableEq

/-- run_normal_chat from chat_service.py: the direct message path that
bypasses the job engine.  It builds the history from the chat's messages
plus the prompt as a final user turn, creates the client, calls it once,
appends the user Message and then the assistant Message to the chat, and
returns the assistant reply. -/
def run_normal_chat (env : RunEnv) (s : MemoryStore) (chat_id prompt : String) :
    NormalChatOutcome :=
  match s.get_chat chat_id with
  | Except.error e => { raised := some e, store := s, reply := none, llm_calls := [] }
  | Except.ok chat =>
    let history := chat.messages.map (fun mg => (mg.role, mg.content)) ++ [("user", prompt)]
    match create_llm_client env.settings chat.provider chat.model with
    | Except.error e => { raised := some e, store := s, reply := none, llm_calls := [] }
    | Except.ok llm =>
      match env.llm_chat llm history with
      | Except.error e =>
        { raised := some e, store := s, reply := none, llm_calls := [history] }
      | Except.ok response =>
        let assistant_reply := response.text
        match s.add_message chat.id "user" prompt env.ts with
        | Except.error e =>
          { raised := some e, store := s, reply := none, llm_calls := [history] }
        | Except.ok (s1, _) =>
          match s1.add_message chat.id "assistant" assistant_reply env.ts with
          | Except.error e =>
            { raised := some e, store := s1, reply := none, llm_calls := [history] }
          | Except.ok (s2, _) =>
            { raised := none, store := s2, reply := some assistant_reply,
              llm_calls := [history] }

/-- One event emitted on the SSE stream of routers/jobs.py: either a log
line or the final status/result event. -/
inductive SSEEvent where
  | log (line : String)
  | final (status : String) (result : Option Payload)
deriving Repr, DecidableEq

/-- How the event generator of stream_job_events ends: closed after the
terminal event, aborted with NotFound, or still polling when the supplied
observation sequence runs out. -/
inductive StreamEnd where
  | closed
  | notFound
  | pollsExhausted
deriving Repr, DecidableEq

/-- The event generator of stream_job_events in routers/jobs.py, written
over the sequence of snapshots the poll loop observes (one element per
iteration, none when job_manager.get_job returns a falsy value).  Each
iteration emits the log lines beyond those already sent, then, if the
status is terminal, one final event carrying status and result, and stops;
otherwise it sleeps and polls again. -/
def event_generator : List (Option ChannelEntry) → Nat → List SSEEvent × StreamEnd
  | [], _ => ([], StreamEnd.pollsExhausted)
  | none :: _, _ => ([], StreamEnd.notFound)
  | some state :: rest, last_len =>
    let newEvents := (state.logs.drop last_len).map SSEEvent.log
    let last_len2 := if state.logs.length > last_len then state.logs.length else last_len
    if state.status = "completed" ∨ state.status = "failed" then
      (newEvents ++ [SSEEvent.final state.status state.result], StreamEnd.closed)
    else
      let r := event_generator rest last_len2
      (newEvents ++ r.1, r.2)

/-- Fixture: a direct-mode chat (no agent id) for the concrete scenarios. -/
def exChat : Chat := { id := "c1", provider := "openai", model := "m" }

/-- Fixture: a freshly created Job for exChat with prompt Hello. -/
def exJob : Job := { id := "j1", chat_id := "c1", prompt := "Hello" }

/-- Fixture: a store holding exChat and exJob. -/
def exStore : MemoryStore := { chats := [("c1", exChat)], jobs := [("j1", exJob)] }

/-- Fixture: the mirrored entry created for exJob. -/
def exManager : JobManager :=
  { entries := [("j1", { metadata := [("chat_id", some "c1"), ("agent_id", none)] })] }

/-- Fixture: collaborators whose model client replies Hi! to every history
and whose agent registry is empty. -/
def exEnv : RunEnv :=
  { llm_chat := fun _ _ => Except.ok { text := "Hi!" },
    agents := fun _ => none, ts := 7 }

/-- Fixture: collaborators whose model client raises an exception whose
description is the text boom. -/
def exEnvErr : RunEnv :=
  { llm_chat := fun _ _ => Except.error "boom",
    agents := fun _ => none, ts := 7 }

/-- Fixture: collaborators whose model client raises an exception whose
description is the empty string, as Python allows with Exception(). -/
def exEnvEmptyErr : RunEnv :=
  { llm_chat := fun _ _ => Except.error "",
    agents := fun _ => none, ts := 7 }

/-- Fixture: a chat whose provider name is not in the recognized set. -/
def exChatFoo : Chat := { id := "c2", provider := "foo", model := "m" }

/-- Fixture: a store holding exChatFoo and a fresh job for it. -/
def exStoreFoo : MemoryStore :=
  { chats := [("c2", exChatFoo)],
    jobs := [("j2", { id := "j2", chat_id := "c2", prompt := "Hello" })] }

/-- Fixture: the mirrored entry created for the job of exStoreFoo. -/
def exManagerFoo : JobManager :=
  { entries := [("j2", { metadata := [("chat_id", some "c2"), ("agent_id", none)] })] }

/-- Fixture: the mirror entry as first observed by a poller, still queued. -/
def entryQueued : ChannelEntry := {}

/-- Fixture: the mirror entry after the running-mark of the task runner. -/
def entryRunning : ChannelEntry := { status := "running", logs := ["Job started"] }

/-- Fixture: the mirror entry after a completed direct-chat run. -/
def entryDone : ChannelEntry :=
  { status := "completed", logs := ["Job started", "Normal chat completed"],
    result := some [("text", some "Hi!")] }

theorem lookupId_updateId_self {α : Type} (f : α → α)
    (l : List (String × α)) (k : String) (v : α)
    (h : lookupId l k = some v) :
    lookupId (updateId f l k) k = some (f v) := by
  induction l with
  | nil => simp [lookupId] at h
  | cons p rest ih =>
    by_cases hpk : p.1 = k
    · simp [lookupId, hpk] at h
      simp [updateId, lookupId, hpk, h]
    · simp [lookupId, hpk] at h
      simp [updateId, lookupId, hpk, ih h]

theorem lookupId_updateId_ne {α : Type} (f : α → α)
    (l : List (String × α)) (k k2 : String) (hne : k2 ≠ k) :
    lookupId (updateId f l k) k2 = lookupId l k2 := by
  induction l with
  | nil => simp [updateId, lookupId]
  | cons p rest ih =>
    have hne2 : ¬ k = k2 := fun h => hne h.symm
    by_cases hpk : p.1 = k
    · have hp2 : ¬ p.1 = k2 := by
        intro h2; exact hne (h2 ▸ hpk)
      simp [updateId, lookupId, hpk, hp2, hne2]
    · by_cases hp2 : p.1 = k2
      · simp [updateId, lookupId, hpk, hp2, hne]
      · simp [updateId, lookupId, hpk, hp2, ih]

/-- C8: create_llm_client fails with the invalid-argument ValueError for an
empty provider or an empty model; otherwise it normalizes the provider by
stripping whitespace and lowering case, returns an OpenAI client for
openai, gpt or chatgpt, an Anthropic client for anthropic or claude, and
fails with the unsupported-provider ValueError for every name outside that
fixed set. -/
theorem C8_create_llm_client_cases (st : Settings) (provider model : String) :
    (provider = "" →
      create_llm_client st provider model = Except.error "LLM provider is required.")
    ∧ (provider ≠ "" → model = "" →
      create_llm_client st provider model = Except.error "LLM model is required.")
    ∧ (provider ≠ "" → model ≠ "" →
      lowerString (stripString provider) ∈ (["openai", "gpt", "chatgpt"] : List String) →
      create_llm_client st provider model =
        Except.ok (LLMClient.openai model st.OPENAI_API_KEY))
    ∧ (provider ≠ "" → model ≠ "" →
      lowerString (stripString provider) ∈ (["anthropic", "claude"] : List String) →
      create_llm_client st provider model =
        Except.ok (LLMClient.anthropic model st.ANTHROPIC_API_KEY))
    ∧ (provider ≠ "" → model ≠ "" →
      lowerString (stripString provider) ∉
        (["openai", "gpt", "chatgpt", "anthropic", "claude"] : List String) →
      create_llm_client st provider model =
        Except.error ("Unknown provider: " ++ lowerString (stripString provider) ++
          ". Supported: openai, anthropic")) := by
  refine ⟨?_, ?_, ?_, ?_, ?_⟩
  · intro hp
    simp [create_llm_client, hp]
  · intro hp hm
    simp [create_llm_client, hp, hm]
  · intro hp hm hmem
    simp [create_llm_client, hp, hm, hmem]
  · intro hp hm hmem
    simp only [List.mem_cons, List.not_mem_nil, or_false] at hmem
    rcases hmem with h | h <;> simp [create_llm_client, hp, hm, h]
  · intro hp hm hmem
    simp only [List.mem_cons, List.not_mem_nil, or_false, not_or] at hmem
    obtain ⟨h1, h2, h3, h4, h5⟩ := hmem
    simp [create_llm_client, hp, hm, h1, h2, h3, h4, h5]

/-- Witness for C8 at a concrete input: a provider name with surrounding
whitespace and mixed case is recognized as OpenAI. -/
theorem C8_witness :
    (" GPT " : String) ≠ ""
    ∧ create_llm_client {} " GPT " "m" = Except.ok (LLMClient.openai "m" "") := by
  refine ⟨by decide, ?_⟩
  exact (C8_create_llm_client_cases {} " GPT " "m").2.2.1 (by decide) (by decide) (by decide)

/-- C6: updating an existing Job with any subset of the partial fields
changes only the supplied fields of that Job; every field not supplied
retains its prior value, every other Job and every Chat in the store is
unchanged, and the call returns the Job that is now stored. -/
theorem C6_update_job_frame (s : MemoryStore) (job_id : String) (j : Job)
    (u : JobUpdate) (hj : lookupId s.jobs job_id = some j) :
    ∃ s2 j2,
      s.update_job job_id u = Except.ok (s2, j2)
      ∧ lookupId s2.jobs job_id = some j2
      ∧ s2.chats = s.chats
      ∧ (∀ k, k ≠ job_id → lookupId s2.jobs k = lookupId s.jobs k)
      ∧ (u.status = none → j2.status = j.status)
      ∧ (∀ v, u.status = some v → j2.status = v)
      ∧ (u.log = none → j2.logs = j.logs)
      ∧ (∀ l, u.log = some l → l ≠ "" → j2.logs = j.logs ++ [l])
      ∧ (u.result_message = none → j2.result_message = j.result_message)
      ∧ (∀ v, u.result_message = some v → j2.result_message = some v)
      ∧ (u.output_docx_path = none → j2.output_docx_path = j.output_docx_path)
      ∧ (∀ v, u.output_docx_path = some v → j2.output_docx_path = some v)
      ∧ (u.output_payload = none → j2.output_payload = j.output_payload)
      ∧ (∀ v, u.output_payload = some v → j2.output_payload = some v)
      ∧ (u.error = none → j2.error = j.error)
      ∧ (∀ v, u.error = some v → j2.error = some v)
      ∧ j2.id = j.id ∧ j2.chat_id = j.chat_id ∧ j2.prompt = j.prompt
      ∧ j2.metadata = j.metadata := by
  have hupd : s.update_job job_id u =
      Except.ok ({ s with jobs := updateId (fun _ => applyJobUpdate u j) s.jobs job_id },
                 applyJobUpdate u j) := by
    simp [MemoryStore.update_job, hj]
  refine ⟨_, _, hupd, lookupId_updateId_self _ _ _ _ hj, rfl,
    fun k hk => lookupId_updateId_ne _ _ _ _ hk,
    ?_, ?_, ?_, ?_, ?_, ?_, ?_, ?_, ?_, ?_, ?_, ?_, ?_, ?_, ?_, ?_⟩
  · intro h0; simp [applyJobUpdate, h0]
  · intro v hv; simp [applyJobUpdate, hv]
  · intro h0; simp [applyJobUpdate, h0]
  · intro l hl hne; simp [applyJobUpdate, hl, hne]
  · intro h0; simp [applyJobUpdate, h0]
  · intro v hv; simp [applyJobUpdate, hv]
  · intro h0; simp [applyJobUpdate, h0]
  · intro v hv; simp [applyJobUpdate, hv]
  · intro h0; simp [applyJobUpdate, h0]
  · intro v hv; simp [applyJobUpdate, hv]
  · intro h0; simp [applyJobUpdate, h0]
  · intro v hv; simp [applyJobUpdate, hv]
  · simp [applyJobUpdate]
  · simp [applyJobUpdate]
  · simp [applyJobUpdate]
  · simp [applyJobUpdate]

/-- Witness for C6 at a concrete input: exJob is stored, and an update
supplying only the status keeps the chats container untouched. -/
theorem C6_witness :
    ∃ s2 j2,
      MemoryStore.update_job exStore "j1" { status := some "running" }
        = Except.ok (s2, j2)
      ∧ lookupId s2.jobs "j1" = some j2
      ∧ s2.chats = exStore.chats := by
  obtain ⟨s2, j2, h1, h2, h3, _⟩ :=
    C6_update_job_frame exStore "j1" exJob { status := some "running" } (by decide)
  exact ⟨s2, j2, h1, h2, h3⟩

/-- C10: update_job treats an empty-string log argument exactly like an
absent one — the Python truthiness test appends nothing for None or the
empty string — while any non-empty log string appends exactly one line at
the end of the Job's logs. -/
theorem C10_update_job_log_truthiness (s : MemoryStore) (job_id : String)
    (j : Job) (u : JobUpdate) (hj : lookupId s.jobs job_id = some j) :
    ((u.log = some "" ∨ u.log = none) →
      ∃ s2 j2, s.update_job job_id u = Except.ok (s2, j2) ∧ j2.logs = j.logs)
    ∧ (∀ l, u.log = some l → l ≠ "" →
      ∃ s2 j2, s.update_job job_id u = Except.ok (s2, j2)
        ∧ j2.logs = j.logs ++ [l]) := by
  have hupd : s.update_job job_id u =
      Except.ok ({ s with jobs := updateId (fun _ => applyJobUpdate u j) s.jobs job_id },
                 applyJobUpdate u j) := by
    simp [MemoryStore.update_job, hj]
  constructor
  · intro h0
    refine ⟨_, _, hupd, ?_⟩
    rcases h0 with h0 | h0 <;> simp [applyJobUpdate, h0]
  · intro l hl hne
    refine ⟨_, _, hupd, ?_⟩
    simp [applyJobUpdate, hl, hne]

/-- Witness for C10 at a concrete input: an update carrying log set to the
empty string leaves exJob's logs unchanged. -/
theorem C10_witness :
    ∃ s2 j2,
      MemoryStore.update_job exStore "j1" { log := some "" } = Except.ok (s2, j2)
      ∧ j2.logs = exJob.logs := by
  exact (C10_update_job_log_truthiness exStore "j1" exJob { log := some "" }
    (by decide)).1 (Or.inl rfl)

theorem runJobFail_status_writes (s : MemoryStore) (m : JobManager)
    (job_id exc : String) (calls : List (List (String × String))) :
    (runJobFail s m job_id exc calls).store_status_writes = []
    ∨ (runJobFail s m job_id exc calls).store_status_writes = ["failed"] := by
  unfold runJobFail
  split
  · exact Or.inl rfl
  · exact Or.inr rfl

theorem runNormalMode_status_writes (env : RunEnv) (s : MemoryStore)
    (m : JobManager) (job_id : String) (chat : Chat) (llm_client : LLMClient)
    (prompt : String) :
    (runNormalMode env s m job_id chat llm_client prompt).store_status_writes = []
    ∨ (runNormalMode env s m job_id chat llm_client prompt).store_status_writes
      = ["completed"]
    ∨ (runNormalMode env s m job_id chat llm_client prompt).store_status_writes
      = ["failed"] := by
  unfold runNormalMode
  dsimp only
  split
  · rcases runJobFail_status_writes _ _ _ _ _ with h | h
    · exact Or.inl h
    · exact Or.inr (Or.inr h)
  · split
    · rcases runJobFail_status_writes _ _ _ _ _ with h | h
      · exact Or.inl h
      · exact Or.inr (Or.inr h)
    · split
      · rcases runJobFail_status_writes _ _ _ _ _ with h | h
        · exact Or.inl h
        · exact Or.inr (Or.inr h)
      · exact Or.inr (Or.inl rfl)

theorem runAgentMode_status_writes (env : RunEnv) (s : MemoryStore)
    (m : JobManager) (job_id : String) (chat : Chat) (llm_client : LLMClient)
    (prompt : String) :
    (runAgentMode env s m job_id chat llm_client prompt).store_status_writes = []
    ∨ (runAgentMode env s m job_id chat llm_client prompt).store_status_writes
      = ["completed"]
    ∨ (runAgentMode env s m job_id chat llm_client prompt).store_status_writes
      = ["failed"] := by
  unfold runAgentMode
  dsimp only
  split
  · rcases runJobFail_status_writes _ _ _ _ _ with h | h
    · exact Or.inl h
    · exact Or.inr (Or.inr h)
  · split
    · rcases runJobFail_status_writes _ _ _ _ _ with h | h
      · exact Or.inl h
      · exact Or.inr (Or.inr h)
    · split
      · rcases runJobFail_status_writes _ _ _ _ _ with h | h
        · exact Or.inl h
        · exact Or.inr (Or.inr h)
      · split
        · rcases runJobFail_status_writes _ _ _ _ _ with h | h
          · exact Or.inl h
          · exact Or.inr (Or.inr h)
        · exact Or.inr (Or.inl rfl)

theorem run_job_status_writes (env : RunEnv) (s : MemoryStore)
    (m : JobManager) (job_id : String) :
    (run_job env s m job_id).store_status_writes = []
    ∨ (run_job env s m job_id).store_status_writes = ["completed"]
    ∨ (run_job env s m job_id).store_status_writes = ["failed"] := by
  unfold run_job
  dsimp only
  split
  · exact Or.inl rfl
  · split
    · exact Or.inl rfl
    · split
      · exact Or.inl rfl
      · split
        · exact runNormalMode_status_writes _ _ _ _ _ _ _
        · exact runAgentMode_status_writes _ _ _ _ _ _ _

/-- C1 counterexample: a completed direct-chat run in which the memory
store Job record is never marked running and never receives the log line
Job started.  The only status value ever written to the store record is
completed (store_status_writes), its final logs are exactly the single
line Normal chat completed, while the mirror entry alone carries the
running transition's Job started line.  Since a Job's logs only ever grow,
the absent line proves the record was never given the running update the
claim describes. -/
theorem C1_counterexample :
    (run_job exEnv exStore exManager "j1").store_status_writes = ["completed"]
    ∧ ¬ ("running" ∈ (run_job exEnv exStore exManager "j1").store_status_writes)
    ∧ (lookupId (run_job exEnv exStore exManager "j1").store.jobs "j1").map Job.logs
      = some ["Normal chat completed"]
    ∧ ¬ ("Job started" ∈ ["Normal chat completed"])
    ∧ (lookupId (run_job exEnv exStore exManager "j1").manager.entries "j1").map
        ChannelEntry.logs
      = some ["Job started", "Normal chat completed"] := by
  decide

theorem run_job_normal_completed (env : RunEnv) (s : MemoryStore)
    (m : JobManager) (job_id : String) (j : Job) (chat : Chat)
    (client : LLMClient) (T : String)
    (hj : lookupId s.jobs job_id = some j)
    (hc : lookupId s.chats j.chat_id = some chat)
    (hid : chat.id = j.chat_id)
    (hag : chat.agent_id.getD "" = "")
    (hclient : create_llm_client env.settings chat.provider chat.model
      = Except.ok client)
    (hllm : env.llm_chat client
        (chat.messages.map (fun mg => (mg.role, mg.content)) ++ [("user", j.prompt)])
      = Except.ok { text := T }) :
    run_job env s m job_id =
      { raised := none,
        store :=
          { chats := updateId (fun c => { c with messages := c.messages ++
              [{ role := "assistant", content := T, timestamp := env.ts }] })
              s.chats j.chat_id,
            jobs := updateId (fun _ => applyJobUpdate
              { status := some "completed", log := some "Normal chat completed",
                result_message := some T,
                output_payload := some [("text", some T)] } j) s.jobs job_id },
        manager := (m.update_job job_id
            { status := some "running", log := some "Job started" }).update_job job_id
          { status := some "completed", log := some "Normal chat completed",
            result := some [("text", some T)] },
        llm_calls := [chat.messages.map (fun mg => (mg.role, mg.content))
          ++ [("user", j.prompt)]],
        store_status_writes := ["completed"] } := by
  simp only [run_job, MemoryStore.get_job, hj, MemoryStore.get_chat, hc, hclient, hag,
    if_pos, runNormalMode, hllm, MemoryStore.add_message, hid,
    MemoryStore.update_job]

theorem job_failed_log_ne (exc : String) : ("Job failed: " ++ exc) ≠ "" := by
  intro h0
  have hlen : ("Job failed: " ++ exc).length = 0 := by rw [h0]; rfl
  rw [String.length_append] at hlen
  have h12 : ("Job failed: " : String).length = 12 := by decide
  omega

theorem run_job_normal_llm_error (env : RunEnv) (s : MemoryStore)
    (m : JobManager) (job_id : String) (j : Job) (chat : Chat)
    (client : LLMClient) (exc : String)
    (hj : lookupId s.jobs job_id = some j)
    (hc : lookupId s.chats j.chat_id = some chat)
    (hag : chat.agent_id.getD "" = "")
    (hclient : create_llm_client env.settings chat.provider chat.model
      = Except.ok client)
    (hllm : env.llm_chat client
        (chat.messages.map (fun mg => (mg.role, mg.content)) ++ [("user", j.prompt)])
      = Except.error exc) :
    run_job env s m job_id =
      { raised := none,
        store := { s with jobs := updateId (fun _ => applyJobUpdate
          { status := some "failed", log := some ("Job failed: " ++ exc),
            error := some exc } j) s.jobs job_id },
        manager := (m.update_job job_id
            { status := some "running", log := some "Job started" }).update_job job_id
          { status := some "failed", log := some ("Job failed: " ++ exc),
            result := none },
        llm_calls := [chat.messages.map (fun mg => (mg.role, mg.content))
          ++ [("user", j.prompt)]],
        store_status_writes := ["failed"] } := by
  simp only [run_job, MemoryStore.get_job, hj, MemoryStore.get_chat, hc, hclient, hag,
    if_pos, runNormalMode, hllm, runJobFail, MemoryStore.update_job]

theorem run_job_agent_unknown (env : RunEnv) (s : MemoryStore)
    (m : JobManager) (job_id : String) (j : Job) (chat : Chat)
    (client : LLMClient) (a : String)
    (hj : lookupId s.jobs job_id = some j)
    (hc : lookupId s.chats j.chat_id = some chat)
    (hclient : create_llm_client env.settings chat.provider chat.model
      = Except.ok client)
    (ha : chat.agent_id = some a) (hane : a ≠ "")
    (hreg : env.agents a = none) :
    run_job env s m job_id =
      { raised := none,
        store := { s with jobs := updateId (fun _ => applyJobUpdate
          { status := some "failed",
            log := some ("Job failed: " ++ ("Unknown agent: " ++ a)),
            error := some ("Unknown agent: " ++ a) } j) s.jobs job_id },
        manager := (m.update_job job_id
            { status := some "running", log := some "Job started" }).update_job job_id
          { status := some "failed",
            log := some ("Job failed: " ++ ("Unknown agent: " ++ a)),
            result := none },
        llm_calls := [],
        store_status_writes := ["failed"] } := by
  simp only [run_job, MemoryStore.get_job, hj, MemoryStore.get_chat, hc, hclient, ha,
    Option.getD_some, if_neg hane, runAgentMode, get_agent, hreg, runJobFail,
    MemoryStore.update_job]

/-- C3 (amended): errors raised before the try-block of _run_job — a
missing Job, a missing Chat, or a model-client-creation failure such as an
unsupported provider — are re-raised to the caller that scheduled the run
and leave the Job and both containers completely untouched (the Job is NOT
set to failed).  Only errors raised during mode execution after the
running-mark — a model-call error or an agent error such as an unknown
agent id — are captured: the Job is set to failed, the failure description
is recorded both as the appended log line (Job failed: ...) and in the
error field, and nothing is re-raised. -/
theorem C3_amended_error_propagation (env : RunEnv) (s : MemoryStore)
    (m : JobManager) (job_id : String) :
    (lookupId s.jobs job_id = none →
      run_job env s m job_id =
        { raised := some ("Job " ++ job_id ++ " not found"), store := s,
          manager := m, llm_calls := [], store_status_writes := [] })
    ∧ (∀ j, lookupId s.jobs job_id = some j →
      lookupId s.chats j.chat_id = none →
      run_job env s m job_id =
        { raised := some ("Chat " ++ j.chat_id ++ " not found"), store := s,
          manager := m, llm_calls := [], store_status_writes := [] })
    ∧ (∀ j chat e, lookupId s.jobs job_id = some j →
      lookupId s.chats j.chat_id = some chat →
      create_llm_client env.settings chat.provider chat.model = Except.error e →
      run_job env s m job_id =
        { raised := some e, store := s, manager := m, llm_calls := [],
          store_status_writes := [] })
    ∧ (∀ j chat client exc, lookupId s.jobs job_id = some j →
      lookupId s.chats j.chat_id = some chat →
      chat.agent_id.getD "" = "" →
      create_llm_client env.settings chat.provider chat.model = Except.ok client →
      env.llm_chat client
          (chat.messages.map (fun mg => (mg.role, mg.content)) ++ [("user", j.prompt)])
        = Except.error exc →
      (run_job env s m job_id).raised = none
      ∧ (lookupId (run_job env s m job_id).store.jobs job_id).map Job.status
        = some "failed"
      ∧ (lookupId (run_job env s m job_id).store.jobs job_id).map Job.error
        = some (some exc)
      ∧ (lookupId (run_job env s m job_id).store.jobs job_id).map Job.logs
        = some (j.logs ++ ["Job failed: " ++ exc]))
    ∧ (∀ j chat client a, lookupId s.jobs job_id = some j →
      lookupId s.chats j.chat_id = some chat →
      chat.agent_id = some a → a ≠ "" →
      create_llm_client env.settings chat.provider chat.model = Except.ok client →
      env.agents a = none →
      (run_job env s m job_id).raised = none
      ∧ (lookupId (run_job env s m job_id).store.jobs job_id).map Job.status
        = some "failed"
      ∧ (lookupId (run_job env s m job_id).store.jobs job_id).map Job.error
        = some (some ("Unknown agent: " ++ a))) := by
  refine ⟨?_, ?_, ?_, ?_, ?_⟩
  · intro h
    simp [run_job, MemoryStore.get_job, h]
  · intro j hj hcn
    simp [run_job, MemoryStore.get_job, hj, MemoryStore.get_chat, hcn]
  · intro j chat e hj hc he
    simp [run_job, MemoryStore.get_job, hj, MemoryStore.get_chat, hc, he]
  · intro j chat client exc hj hc hag hclient hllm
    rw [run_job_normal_llm_error env s m job_id j chat client exc hj hc hag hclient hllm]
    have hlk := lookupId_updateId_self (fun _ => applyJobUpdate
      { status := some "failed", log := some ("Job failed: " ++ exc),
        error := some exc } j) s.jobs job_id j hj
    refine ⟨rfl, ?_, ?_, ?_⟩ <;> rw [hlk] <;>
      simp [applyJobUpdate, job_failed_log_ne exc]
  · intro j chat client a hj hc ha hane hclient hreg
    rw [run_job_agent_unknown env s m job_id j chat client a hj hc hclient ha hane hreg]
    have hlk := lookupId_updateId_self (fun _ => applyJobUpdate
      { status := some "failed",
        log := some ("Job failed: " ++ ("Unknown agent: " ++ a)),
        error := some ("Unknown agent: " ++ a) } j) s.jobs job_id j hj
    refine ⟨rfl, ?_, ?_⟩ <;> rw [hlk] <;> simp [applyJobUpdate]

/-- Witness for C3 (amended) at a concrete input: a model call raising the
exception boom leaves the runner silent and sets the Job to failed. -/
theorem C3_witness :
    (run_job exEnvErr exStore exManager "j1").raised = none
    ∧ (lookupId (run_job exEnvErr exStore exManager "j1").store.jobs "j1").map
        Job.status = some "failed" := by
  have h := (C3_amended_error_propagation exEnvErr exStore exManager "j1").2.2.2.1
    exJob exChat (LLMClient.openai "m" "") "boom" (by decide) (by decide) rfl rfl rfl
  exact ⟨h.1, h.2.1⟩

/-- C1 (amended): every created Job starts with status queued, and during
any run of the task runner the memory store Job record receives at most
one status write, which is terminal — completed or failed.  In particular
the record is never set to running: the running transition, together with
the log line Job started, is applied to the Status Channel mirror entry
only, so the record passes directly from queued to a terminal status and
no update ever moves it out of a terminal status. -/
theorem C1_amended_job_lifecycle (env : RunEnv) (s : MemoryStore)
    (m : JobManager) (job_id chat_id prompt : String) (md : Metadata) :
    (s.create_job job_id chat_id prompt md).2.status = "queued"
    ∧ (∀ st ∈ (run_job env s m job_id).store_status_writes,
        st = "completed" ∨ st = "failed")
    ∧ (run_job env s m job_id).store_status_writes.length ≤ 1 := by
  refine ⟨rfl, ?_, ?_⟩
  · intro st hmem
    rcases run_job_status_writes env s m job_id with h | h | h
    · rw [h] at hmem
      cases hmem
    · rw [h] at hmem
      simp only [List.mem_cons, List.not_mem_nil, or_false] at hmem
      exact Or.inl hmem
    · rw [h] at hmem
      simp only [List.mem_cons, List.not_mem_nil, or_false] at hmem
      exact Or.inr hmem
  · rcases run_job_status_writes env s m job_id with h | h | h <;> rw [h] <;> simp

/-- Witness for C1 (amended) at a concrete input: the created job is
queued, and the single store status write of the concrete completed run is
terminal. -/
theorem C1_witness :
    (exStore.create_job "j1" "c1" "Hello" []).2.status = "queued"
    ∧ ("completed" = "completed" ∨ "completed" = "failed") := by
  have h := C1_amended_job_lifecycle exEnv exStore exManager "j1" "c1" "Hello" []
  exact ⟨h.1, h.2.1 "completed" (by decide)⟩

/-- C2 counterexample: a direct-chat Job that reaches completed appends
exactly ONE new Message to the owning Chat — the assistant reply — and no
user Message carrying the prompt Hello, contradicting the claimed pair of
appended Messages. -/
theorem C2_counterexample :
    (run_job exEnv exStore exManager "j1").raised = none
    ∧ (lookupId (run_job exEnv exStore exManager "j1").store.jobs "j1").map Job.status
      = some "completed"
    ∧ (lookupId (run_job exEnv exStore exManager "j1").store.chats "c1").map
        (fun c => c.messages.map (fun mg => (mg.role, mg.content)))
      = some [("assistant", "Hi!")] := by
  decide

/-- C3 counterexample: a Job whose chat names the unsupported provider foo.
create_llm_client raises before the try-block of _run_job, so the
exception escapes to the caller that scheduled the run (raised is set),
the Job is NOT set to failed — it stays queued with no error and no log —
and both containers are completely untouched. -/
theorem C3_counterexample :
    (run_job exEnv exStoreFoo exManagerFoo "j2").raised
      = some "Unknown provider: foo. Supported: openai, anthropic"
    ∧ (run_job exEnv exStoreFoo exManagerFoo "j2").store = exStoreFoo
    ∧ (run_job exEnv exStoreFoo exManagerFoo "j2").manager = exManagerFoo
    ∧ (lookupId exStoreFoo.jobs "j2").map Job.status = some "queued"
    ∧ (lookupId exStoreFoo.jobs "j2").map Job.error = some none := by
  decide

/-- C2 (amended): for every direct-chat Job whose model call returns text
T, the run appends exactly ONE new Message to the owning Chat — an
assistant Message whose content is T.  The user prompt reaches the model
as the final turn of the history but is never appended to the Chat (only
run_normal_chat, the non-job path, appends the user Message). -/
theorem C2_amended_single_assistant_message (env : RunEnv) (s : MemoryStore)
    (m : JobManager) (job_id : String) (j : Job) (chat : Chat)
    (client : LLMClient) (T : String)
    (hj : lookupId s.jobs job_id = some j)
    (hc : lookupId s.chats j.chat_id = some chat)
    (hid : chat.id = j.chat_id)
    (hag : chat.agent_id.getD "" = "")
    (hclient : create_llm_client env.settings chat.provider chat.model
      = Except.ok client)
    (hllm : env.llm_chat client
        (chat.messages.map (fun mg => (mg.role, mg.content)) ++ [("user", j.prompt)])
      = Except.ok { text := T }) :
    (run_job env s m job_id).raised = none
    ∧ (lookupId (run_job env s m job_id).store.chats j.chat_id).map Chat.messages
      = some (chat.messages
          ++ [{ role := "assistant", content := T, timestamp := env.ts }]) := by
  rw [run_job_normal_completed env s m job_id j chat client T hj hc hid hag hclient hllm]
  refine ⟨rfl, ?_⟩
  have hlk := lookupId_updateId_self (fun c => { c with messages := c.messages ++
      [{ role := "assistant", content := T, timestamp := env.ts }] })
    s.chats j.chat_id chat hc
  rw [hlk]
  rfl

/-- Witness for C2 (amended) at a concrete input: the completed run of
exJob leaves exChat with exactly one appended assistant Message Hi!. -/
theorem C2_witness :
    (run_job exEnv exStore exManager "j1").raised = none
    ∧ (lookupId (run_job exEnv exStore exManager "j1").store.chats "c1").map
        Chat.messages
      = some (exChat.messages
          ++ [{ role := "assistant", content := "Hi!", timestamp := 7 }]) := by
  exact C2_amended_single_assistant_message exEnv exStore exManager "j1" exJob exChat
    (LLMClient.openai "m" "") "Hi!" (by decide) (by decide) rfl rfl rfl rfl

/-- C4: for every direct-chat Job whose model call returns text T, the
history handed to the model client equals the Chat's messages mapped to
role/content pairs followed by exactly one final user turn carrying the
prompt, the chat capability is invoked exactly once (llm_calls is that
single history), and on completion the Job's result_message is T and its
output_payload is the singleton dict text = T. -/
theorem C4_direct_chat_result (env : RunEnv) (s : MemoryStore)
    (m : JobManager) (job_id : String) (j : Job) (chat : Chat)
    (client : LLMClient) (T : String)
    (hj : lookupId s.jobs job_id = some j)
    (hc : lookupId s.chats j.chat_id = some chat)
    (hid : chat.id = j.chat_id)
    (hag : chat.agent_id.getD "" = "")
    (hclient : create_llm_client env.settings chat.provider chat.model
      = Except.ok client)
    (hllm : env.llm_chat client
        (chat.messages.map (fun mg => (mg.role, mg.content)) ++ [("user", j.prompt)])
      = Except.ok { text := T }) :
    (run_job env s m job_id).llm_calls
      = [chat.messages.map (fun mg => (mg.role, mg.content)) ++ [("user", j.prompt)]]
    ∧ (run_job env s m job_id).raised = none
    ∧ (lookupId (run_job env s m job_id).store.jobs job_id).map Job.status
      = some "completed"
    ∧ (lookupId (run_job env s m job_id).store.jobs job_id).map Job.result_message
      = some (some T)
    ∧ (lookupId (run_job env s m job_id).store.jobs job_id).map Job.output_payload
      = some (some [("text", some T)]) := by
  rw [run_job_normal_completed env s m job_id j chat client T hj hc hid hag hclient hllm]
  have hlk := lookupId_updateId_self (fun _ => applyJobUpdate
    { status := some "completed", log := some "Normal chat completed",
      result_message := some T,
      output_payload := some [("text", some T)] } j) s.jobs job_id j hj
  refine ⟨rfl, rfl, ?_, ?_, ?_⟩ <;> rw [hlk] <;> simp [applyJobUpdate]

/-- Witness for C4 at a concrete input: the completed run of exJob called
the model once with history user Hello and recorded result Hi!. -/
theorem C4_witness :
    (run_job exEnv exStore exManager "j1").llm_calls = [[("user", "Hello")]]
    ∧ (lookupId (run_job exEnv exStore exManager "j1").store.jobs "j1").map
        Job.result_message = some (some "Hi!") := by
  have h := C4_direct_chat_result exEnv exStore exManager "j1" exJob exChat
    (LLMClient.openai "m" "") "Hi!" (by decide) (by decide) rfl rfl rfl rfl
  exact ⟨h.1, h.2.2.2.1⟩

/-- C5 counterexample: the model call raises an exception whose textual
description is empty (Python allows Exception()).  The Job reaches failed
with error set to the empty string: the error field is set but NOT
non-empty, contradicting the claim. -/
theorem C5_counterexample :
    (run_job exEnvEmptyErr exStore exManager "j1").raised = none
    ∧ (lookupId (run_job exEnvEmptyErr exStore exManager "j1").store.jobs "j1").map
        Job.status = some "failed"
    ∧ (lookupId (run_job exEnvEmptyErr exStore exManager "j1").store.jobs "j1").map
        Job.error = some (some "") := by
  decide

theorem run_job_final_job (env : RunEnv) (s : MemoryStore) (m : JobManager)
    (job_id : String) (j : Job) (chat : Chat)
    (hj : lookupId s.jobs job_id = some j)
    (hc : lookupId s.chats j.chat_id = some chat)
    (hid : chat.id = j.chat_id) :
    ∃ jf, lookupId (run_job env s m job_id).store.jobs job_id = some jf
      ∧ (jf = j
        ∨ (∃ T, jf = applyJobUpdate
            { status := some "completed", log := some "Normal chat completed",
              result_message := some T,
              output_payload := some [("text", some T)] } j)
        ∨ (∃ T d, jf = applyJobUpdate
            { status := some "completed", log := some "Agent job completed",
              result_message := some T, output_docx_path := d,
              output_payload := some [("text", some T),
                                      ("output_docx_path", d)] } j)
        ∨ (∃ exc, jf = applyJobUpdate
            { status := some "failed", log := some ("Job failed: " ++ exc),
              error := some exc } j)) := by
  simp only [run_job, MemoryStore.get_job, hj, MemoryStore.get_chat, hc]
  cases hcl : create_llm_client env.settings chat.provider chat.model with
  | error e =>
    exact ⟨j, hj, Or.inl rfl⟩
  | ok client =>
    dsimp only
    by_cases hag : chat.agent_id.getD "" = ""
    · rw [if_pos hag]
      cases hr : env.llm_chat client
          (chat.messages.map (fun mg => (mg.role, mg.content))
            ++ [("user", j.prompt)]) with
      | error exc =>
        simp only [runNormalMode, hr, runJobFail, MemoryStore.update_job, hj]
        exact ⟨_, lookupId_updateId_self _ _ _ _ hj,
          Or.inr (Or.inr (Or.inr ⟨exc, rfl⟩))⟩
      | ok response =>
        simp only [runNormalMode, hr, MemoryStore.add_message, hid, hc,
          MemoryStore.update_job, hj]
        exact ⟨_, lookupId_updateId_self _ _ _ _ hj,
          Or.inr (Or.inl ⟨response.text, rfl⟩)⟩
    · rw [if_neg hag]
      cases hga : env.agents (chat.agent_id.getD "") with
      | none =>
        simp only [runAgentMode, get_agent, hga, runJobFail,
          MemoryStore.update_job, hj]
        exact ⟨_, lookupId_updateId_self _ _ _ _ hj,
          Or.inr (Or.inr (Or.inr ⟨_, rfl⟩))⟩
      | some agent =>
        cases hrun : agent.run chat client job_id j.prompt with
        | error exc =>
          simp only [runAgentMode, get_agent, hga, hrun, runJobFail,
            MemoryStore.update_job, hj]
          exact ⟨_, lookupId_updateId_self _ _ _ _ hj,
            Or.inr (Or.inr (Or.inr ⟨exc, rfl⟩))⟩
        | ok result =>
          simp only [runAgentMode, get_agent, hga, hrun, MemoryStore.add_message,
            hid, hc, MemoryStore.update_job, hj]
          exact ⟨_, lookupId_updateId_self _ _ _ _ hj,
            Or.inr (Or.inr (Or.inl ⟨result.text, result.output_docx_path, rfl⟩))⟩

/-- C5 (amended): for every fresh Job (created queued with no result
fields and no error) that a run drives to failed, the error field is SET
to the exception's textual description — which is non-empty except in the
corner case of an exception whose description is empty — and
result_message, output_payload and output_docx_path remain unset; at most
one of the two terminal branches fires, so no Job ever carries both a
result message and an error. -/
theorem C5_amended_failed_invariant (env : RunEnv) (s : MemoryStore)
    (m : JobManager) (job_id : String) (j : Job) (chat : Chat)
    (hj : lookupId s.jobs job_id = some j)
    (hc : lookupId s.chats j.chat_id = some chat)
    (hid : chat.id = j.chat_id)
    (hstatus : j.status = "queued")
    (hrm : j.result_message = none)
    (hpl : j.output_payload = none)
    (hdx : j.output_docx_path = none)
    (herr : j.error = none) :
    ∃ jf, lookupId (run_job env s m job_id).store.jobs job_id = some jf
      ∧ (jf.status = "failed" →
          jf.error.isSome
          ∧ jf.result_message = none
          ∧ jf.output_payload = none
          ∧ jf.output_docx_path = none)
      ∧ ¬(jf.error.isSome ∧ jf.result_message.isSome) := by
  obtain ⟨jf, hlook, hcases⟩ := run_job_final_job env s m job_id j chat hj hc hid
  refine ⟨jf, hlook, ?_, ?_⟩
  · intro hfail
    rcases hcases with rfl | ⟨T, rfl⟩ | ⟨T, d, rfl⟩ | ⟨exc, rfl⟩
    · rw [hstatus] at hfail
      exact absurd hfail (by decide)
    · simp [applyJobUpdate] at hfail
    · simp [applyJobUpdate] at hfail
    · simp [applyJobUpdate, hrm, hpl, hdx]
  · intro ⟨h1, h2⟩
    rcases hcases with rfl | ⟨T, rfl⟩ | ⟨T, d, rfl⟩ | ⟨exc, rfl⟩
    · rw [herr] at h1
      exact absurd h1 (by decide)
    · simp [applyJobUpdate, herr] at h1
    · simp [applyJobUpdate, herr] at h1
    · simp [applyJobUpdate, hrm] at h2

/-- Witness for C5 (amended) at a concrete input: the run of exJob under
the empty-description exception ends with a Job that does not carry both a
result and an error. -/
theorem C5_witness :
    ∃ jf, lookupId (run_job exEnvEmptyErr exStore exManager "j1").store.jobs "j1"
        = some jf
      ∧ ¬(jf.error.isSome ∧ jf.result_message.isSome) := by
  obtain ⟨jf, h1, _, h3⟩ := C5_amended_failed_invariant exEnvEmptyErr exStore
    exManager "j1" exJob exChat (by decide) (by decide) rfl rfl rfl rfl rfl rfl
  exact ⟨jf, h1, h3⟩

/-- C9: run_normal_chat — the direct message path bypassing the job engine
— sends the model the chat's prior messages as role/content pairs plus the
prompt as a final user turn, invokes the chat capability exactly once,
appends exactly two Messages to the chat (a user Message with the prompt,
then an assistant Message with the model's reply), and returns the reply
text. -/
theorem C9_run_normal_chat_behavior (env : RunEnv) (s : MemoryStore)
    (chat_id prompt : String) (chat : Chat) (client : LLMClient) (T : String)
    (hc : lookupId s.chats chat_id = some chat)
    (hid : chat.id = chat_id)
    (hclient : create_llm_client env.settings chat.provider chat.model
      = Except.ok client)
    (hllm : env.llm_chat client
        (chat.messages.map (fun mg => (mg.role, mg.content)) ++ [("user", prompt)])
      = Except.ok { text := T }) :
    (run_normal_chat env s chat_id prompt).raised = none
    ∧ (run_normal_chat env s chat_id prompt).reply = some T
    ∧ (run_normal_chat env s chat_id prompt).llm_calls
      = [chat.messages.map (fun mg => (mg.role, mg.content)) ++ [("user", prompt)]]
    ∧ (lookupId (run_normal_chat env s chat_id prompt).store.chats chat_id).map
        Chat.messages
      = some (chat.messages
          ++ [{ role := "user", content := prompt, timestamp := env.ts },
              { role := "assistant", content := T, timestamp := env.ts }]) := by
  have huser := lookupId_updateId_self (fun c => { c with messages := c.messages ++
      [{ role := "user", content := prompt, timestamp := env.ts }] })
    s.chats chat_id chat hc
  simp only [run_normal_chat, MemoryStore.get_chat, hc, hclient, hllm,
    MemoryStore.add_message, hid, huser]
  refine ⟨trivial, trivial, trivial, ?_⟩
  have hasst := lookupId_updateId_self (fun c => { c with messages := c.messages ++
      [{ role := "assistant", content := T, timestamp := env.ts }] })
    (updateId (fun c => { c with messages := c.messages ++
      [{ role := "user", content := prompt, timestamp := env.ts }] }) s.chats chat_id)
    chat_id _ huser
  rw [hasst]
  simp

/-- Witness for C9 at a concrete input: asking Yo on exChat returns Hi!
and leaves the chat with the user and assistant Messages appended in
order. -/
theorem C9_witness :
    (run_normal_chat exEnv exStore "c1" "Yo").reply = some "Hi!"
    ∧ (lookupId (run_normal_chat exEnv exStore "c1" "Yo").store.chats "c1").map
        Chat.messages
      = some (exChat.messages
          ++ [{ role := "user", content := "Yo", timestamp := 7 },
              { role := "assistant", content := "Hi!", timestamp := 7 }]) := by
  have h := C9_run_normal_chat_behavior exEnv exStore "c1" "Yo" exChat
    (LLMClient.openai "m" "") "Hi!" (by decide) rfl rfl rfl
  exact ⟨h.2.1, h.2.2.2⟩

/-- C7 counterexample: after a completed direct-chat run, streaming emits
the log lines of the Status Channel mirror entry — Job started and Normal
chat completed — whereas the Job record's recorded logs are the single
line Normal chat completed.  The streamed log events are therefore not the
log lines recorded for that Job, contradicting the claim. -/
theorem C7_counterexample :
    (event_generator [(run_job exEnv exStore exManager "j1").manager.get_job "j1"] 0).1
      = [SSEEvent.log "Job started", SSEEvent.log "Normal chat completed",
         SSEEvent.final "completed" (some [("text", some "Hi!")])]
    ∧ (lookupId (run_job exEnv exStore exManager "j1").store.jobs "j1").map Job.logs
      = some ["Normal chat completed"]
    ∧ [SSEEvent.log "Job started", SSEEvent.log "Normal chat completed",
       SSEEvent.final "completed" (some [("text", some "Hi!")])]
      ≠ List.map SSEEvent.log ["Normal chat completed"]
        ++ [SSEEvent.final "completed" (some [("text", some "Hi!")])] := by
  decide

theorem drop_glue {α : Type} (l1 l2 t : List α) (n : Nat)
    (h : l1 ++ t = l2) (hn : n ≤ l1.length) :
    l1.drop n ++ l2.drop l1.length = l2.drop n := by
  subst h
  rw [List.drop_left, List.drop_append_of_le_length hn]

theorem event_generator_spec (e : ChannelEntry) (states : List ChannelEntry) :
    ∀ n : Nat,
      (∀ st ∈ states, ∃ t, st.logs ++ t = e.logs) →
      List.Chain' (fun a b => ∃ t, a.logs ++ t = b.logs) states →
      (∀ st ∈ states, (st.status = "completed" ∨ st.status = "failed") → st = e) →
      (∃ st ∈ states, st.status = "completed" ∨ st.status = "failed") →
      (∀ s1, states.head? = some s1 → n ≤ s1.logs.length) →
      event_generator (states.map some) n =
        ((e.logs.drop n).map SSEEvent.log ++ [SSEEvent.final e.status e.result],
         StreamEnd.closed) := by
  induction states with
  | nil =>
    intro n _ _ _ hex _
    rcases hex with ⟨st, hmem, _⟩
    cases hmem
  | cons s0 rest ih =>
    intro n hpre hchain hstab hex hhead
    have hn0 : n ≤ s0.logs.length := hhead s0 rfl
    by_cases hterm : s0.status = "completed" ∨ s0.status = "failed"
    · have he : s0 = e := hstab s0 (List.mem_cons_self _ _) hterm
      subst he
      simp only [List.map_cons, event_generator]
      rw [if_pos hterm]
    · obtain ⟨hR, hchain2⟩ := List.chain'_cons'.mp hchain
      have hex2 : ∃ st ∈ rest, st.status = "completed" ∨ st.status = "failed" := by
        rcases hex with ⟨st, hmem, hst⟩
        rcases List.mem_cons.mp hmem with rfl | hmem2
        · exact absurd hst hterm
        · exact ⟨st, hmem2, hst⟩
      have hhead2 : ∀ s1, rest.head? = some s1 → s0.logs.length ≤ s1.logs.length := by
        intro s1 h1
        obtain ⟨t, ht⟩ := hR s1 h1
        calc s0.logs.length ≤ s0.logs.length + t.length := Nat.le_add_right _ _
          _ = s1.logs.length := by rw [← ht, List.length_append]
      have hpre2 : ∀ st ∈ rest, ∃ t, st.logs ++ t = e.logs :=
        fun st hm => hpre st (List.mem_cons_of_mem _ hm)
      have hstab2 : ∀ st ∈ rest,
          (st.status = "completed" ∨ st.status = "failed") → st = e :=
        fun st hm h => hstab st (List.mem_cons_of_mem _ hm) h
      have ihres := ih s0.logs.length hpre2 hchain2 hstab2 hex2 hhead2
      obtain ⟨t0, ht0⟩ := hpre s0 (List.mem_cons_self _ _)
      have hn2 : (if s0.logs.length > n then s0.logs.length else n)
          = s0.logs.length := by
        split <;> omega
      simp only [List.map_cons, event_generator]
      rw [if_neg hterm, hn2, ihres]
      dsimp only
      rw [← List.append_assoc, ← List.map_append,
        drop_glue s0.logs e.logs t0 n ht0 hn0]

/-- C7 (amended): streaming a Job's events yields exactly the log lines of
the Status Channel mirror entry for that Job — which, in this code, differ
from the Job record's own logs — in append order, each as one discrete
event, followed by exactly one terminal event carrying status and result
once the entry's status is completed or failed, after which the stream
closes.  This holds for every poll trace in which each snapshot's logs
extend the previous snapshot's (the writer only appends) and every
terminal snapshot equals the final entry e (the terminal update is the
writer's last).  For an identifier that does not exist, the generator
aborts with NotFound before emitting any event. -/
theorem C7_amended_stream_mirror (e : ChannelEntry)
    (states : List ChannelEntry) (polls2 : List (Option ChannelEntry))
    (hpre : ∀ st ∈ states, ∃ t, st.logs ++ t = e.logs)
    (hchain : List.Chain' (fun a b => ∃ t, a.logs ++ t = b.logs) states)
    (hstab : ∀ st ∈ states, (st.status = "completed" ∨ st.status = "failed") → st = e)
    (hex : ∃ st ∈ states, st.status = "completed" ∨ st.status = "failed") :
    event_generator (states.map some) 0 =
      (e.logs.map SSEEvent.log ++ [SSEEvent.final e.status e.result],
       StreamEnd.closed)
    ∧ event_generator (none :: polls2) 0 = ([], StreamEnd.notFound) := by
  constructor
  · have h := event_generator_spec e states 0 hpre hchain hstab hex
      (fun _ _ => Nat.zero_le _)
    simpa using h
  · rfl

/-- Witness for C7 (amended) at a concrete poll trace: the three snapshots
queued, running and completed produce the two log events followed by the
terminal event, and a missing identifier produces NotFound with no
events. -/
theorem C7_witness :
    event_generator [some entryQueued, some entryRunning, some entryDone] 0
      = ([SSEEvent.log "Job started", SSEEvent.log "Normal chat completed",
          SSEEvent.final "completed" (some [("text", some "Hi!")])],
         StreamEnd.closed)
    ∧ event_generator [none] 0 = ([], StreamEnd.notFound) := by
  have h := C7_amended_stream_mirror entryDone [entryQueued, entryRunning, entryDone] []
    ?hpre ?hchain ?hstab ?hex
  · exact ⟨h.1, h.2⟩
  case hpre =>
    intro st hmem
    rcases List.mem_cons.mp hmem with rfl | hmem2
    · exact ⟨["Job started", "Normal chat completed"], rfl⟩
    rcases List.mem_cons.mp hmem2 with rfl | hmem3
    · exact ⟨["Normal chat completed"], rfl⟩
    rcases List.mem_cons.mp hmem3 with rfl | hmem4
    · exact ⟨[], by decide⟩
    · cases hmem4
  case hchain =>
    refine List.chain'_cons.mpr ⟨⟨["Job started"], rfl⟩, ?_⟩
    exact List.chain'_cons.mpr ⟨⟨["Normal chat completed"], rfl⟩,
      List.chain'_singleton _⟩
  case hstab =>
    intro st hmem hst
    rcases List.mem_cons.mp hmem with rfl | hmem2
    · exact absurd hst (by decide)
    rcases List.mem_cons.mp hmem2 with rfl | hmem3
    · exact absurd hst (by decide)
    rcases List.mem_cons.mp hmem3 with rfl | hmem4
    · rfl
    · cases hmem4
  case hex =>
    exact ⟨entryDone, by simp, Or.inl rfl⟩

end App
